import Mathlib

/-!
Verification development for the aivoises voice bridge
(`websocket_server.py`, `gemini_live_client.py`, mirrored by
`main_integrated.py`).

The Python code is embedded shallowly:

* `GeminiLiveClient` (the Backend Session Adapter) becomes a record of the
  two fields the code branches on (`session`, `is_connected`); its methods
  become pure functions returning the updated record together with the list
  of calls made on the remote session.
* `VoiceAIWebSocketServer` becomes a record of the `clients` dict and the
  `active_connections` set; its methods become pure functions returning the
  updated server, the frames sent to clients (tagged with the target
  websocket), and the calls made on adapters (tagged with the websocket that
  owns the adapter).
* JSON frames from the client are modelled as `Option JObj`: `none` stands
  for input on which `json.loads` raises `JSONDecodeError`, `some o` for a
  parsed object with string-valued fields (the wire protocol's client
  frames carry only string fields).  Python truthiness of `dict.get` results
  (`None` and `""` falsy) is `pyTruthy`.
* Python's `base64` module is modelled by `b64encodeList`/`b64decodeList`,
  a standard padded base64 codec over byte values (`Nat < 256`), agreeing
  with `base64.b64encode`/`b64decode` on well-formed inputs.
-/

/-- A websocket handle, used as the key of `clients` and the element of
`active_connections` (identity of a connection). -/
abbrev WS := Nat

/-- A parsed JSON object with string-valued fields, the result of
`json.loads` on a client frame (keys unique, as in a Python dict). -/
abbrev JObj := List (String × String)

/-- `o.get k` on a Python dict: the value at `k`, or `None`. -/
def jobjGet (o : JObj) (k : String) : Option String :=
  match o with
  | [] => none
  | (k', v) :: rest => if k' = k then some v else jobjGet rest k

/-- Python truthiness of a `dict.get` result: `None` and `""` are falsy,
a nonempty string is truthy. -/
def pyTruthy : Option String → Bool
  | none => false
  | some s => !s.data.isEmpty

/-- Python `str` of a `dict.get` result, as used by the f-string in the
unknown-message-type error (`str(None) = "None"`). -/
def pyStr : Option String → String
  | none => "None"
  | some s => s

/-- `d[k] = v` on a Python dict: update the entry in place if the key is
present, else append it. -/
def dictSet {α : Type} (l : List (Nat × α)) (k : Nat) (v : α) : List (Nat × α) :=
  match l with
  | [] => [(k, v)]
  | (k', v') :: rest => if k' = k then (k, v) :: rest else (k', v') :: dictSet rest k v

/-- `d.get(k)` / `k in d` on a Python dict. -/
def dictLookup {α : Type} (l : List (Nat × α)) (k : Nat) : Option α :=
  match l with
  | [] => none
  | (k', v) :: rest => if k' = k then some v else dictLookup rest k

/-- `del d[k]` on a Python dict (removes the entry with key `k`). -/
def dictRemove {α : Type} (l : List (Nat × α)) (k : Nat) : List (Nat × α) :=
  l.filter (fun p => p.1 ≠ k)

/-- `s.add(x)` on a Python set. -/
def setAdd (l : List Nat) (x : Nat) : List Nat :=
  if x ∈ l then l else x :: l

/-- `s.discard(x)` on a Python set. -/
def setDiscard (l : List Nat) (x : Nat) : List Nat :=
  l.filter (fun y => y ≠ x)

/-! ## Base64 (model of Python's `base64.b64encode` / `b64decode`) -/

/-- The standard base64 alphabet. -/
def b64chars : List Char :=
  ['A','B','C','D','E','F','G','H','I','J','K','L','M','N','O','P','Q','R',
   'S','T','U','V','W','X','Y','Z','a','b','c','d','e','f','g','h','i','j',
   'k','l','m','n','o','p','q','r','s','t','u','v','w','x','y','z','0','1',
   '2','3','4','5','6','7','8','9','+','/']

/-- The alphabet character for a 6-bit value. -/
def b64char (n : Nat) : Char := b64chars.getD n '?'

def b64indexAux : List Char → Nat → Char → Option Nat
  | [], _, _ => none
  | a :: rest, i, c => if a = c then some i else b64indexAux rest (i + 1) c

/-- The 6-bit value of an alphabet character, `none` for a non-alphabet
character (on which `base64.b64decode` fails). -/
def b64index (c : Char) : Option Nat := b64indexAux b64chars 0 c

/-- Encode one full 3-byte group as 4 alphabet characters. -/
def encodeChunk3 (a b c : Nat) : List Char :=
  [b64char (a / 4), b64char (a % 4 * 16 + b / 16),
   b64char (b % 16 * 4 + c / 64), b64char (c % 64)]

/-- Base64-encode a byte sequence (`base64.b64encode`), with `=` padding. -/
def b64encodeList : List Nat → List Char
  | [] => []
  | [a] => [b64char (a / 4), b64char (a % 4 * 16), '=', '=']
  | [a, b] => [b64char (a / 4), b64char (a % 4 * 16 + b / 16), b64char (b % 16 * 4), '=']
  | a :: b :: c :: rest => encodeChunk3 a b c ++ b64encodeList rest

/-- Decode 4 alphabet characters into 3 bytes. -/
def decodeQuad (c1 c2 c3 c4 : Char) : Option (List Nat) :=
  match b64index c1, b64index c2, b64index c3, b64index c4 with
  | some i1, some i2, some i3, some i4 =>
      some [i1 * 4 + i2 / 16, i2 % 16 * 16 + i3 / 4, i3 % 4 * 64 + i4]
  | _, _, _, _ => none

/-- Decode the final 4-character group, which may carry `=` padding. -/
def decodeLast (c1 c2 c3 c4 : Char) : Option (List Nat) :=
  if c3 = '=' then
    if c4 = '=' then
      match b64index c1, b64index c2 with
      | some i1, some i2 => some [i1 * 4 + i2 / 16]
      | _, _ => none
    else none
  else if c4 = '=' then
    match b64index c1, b64index c2, b64index c3 with
    | some i1, some i2, some i3 => some [i1 * 4 + i2 / 16, i2 % 16 * 16 + i3 / 4]
    | _, _, _ => none
  else decodeQuad c1 c2 c3 c4

/-- Base64-decode a character sequence (`base64.b64decode` on well-formed
input; `none` models the `binascii.Error` raised on malformed input). -/
def b64decodeList : List Char → Option (List Nat)
  | [] => some []
  | c1 :: c2 :: c3 :: c4 :: rest =>
      if rest.isEmpty then decodeLast c1 c2 c3 c4
      else
        match decodeQuad c1 c2 c3 c4, b64decodeList rest with
        | some bs, some rest' => some (bs ++ rest')
        | _, _ => none
  | _ => none

/-- `base64.b64decode` applied to a JSON string field. -/
def b64decodeStr (s : String) : Option (List Nat) := b64decodeList s.data

theorem b64index_b64char : ∀ n : Nat, n < 64 → b64index (b64char n) = some n := by
  decide

theorem b64char_ne_pad : ∀ n : Nat, n < 64 → b64char n ≠ '=' := by
  decide

theorem b64encodeList_ne_nil (a : Nat) (l : List Nat) : b64encodeList (a :: l) ≠ [] := by
  match l with
  | [] => simp [b64encodeList]
  | [b] => simp [b64encodeList]
  | b :: c :: rest => simp [b64encodeList, encodeChunk3]

theorem b64_roundtrip : ∀ bs : List Nat, (∀ b ∈ bs, b < 256) →
    b64decodeList (b64encodeList bs) = some bs
  | [], _ => rfl
  | [a], h => by
      have ha : a < 256 := h a (by simp)
      have h1 : a / 4 < 64 := by omega
      have h2 : a % 4 * 16 < 64 := by omega
      simp [b64encodeList, b64decodeList, decodeLast,
            b64index_b64char _ h1, b64index_b64char _ h2]
      omega
  | [a, b], h => by
      have ha : a < 256 := h a (by simp)
      have hb : b < 256 := h b (by simp)
      have h1 : a / 4 < 64 := by omega
      have h2 : a % 4 * 16 + b / 16 < 64 := by omega
      have h3 : b % 16 * 4 < 64 := by omega
      simp [b64encodeList, b64decodeList, decodeLast, b64char_ne_pad _ h3,
            b64index_b64char _ h1, b64index_b64char _ h2, b64index_b64char _ h3]
      omega
  | a :: b :: c :: rest, h => by
      have ha : a < 256 := h a (by simp)
      have hb : b < 256 := h b (by simp)
      have hc : c < 256 := h c (by simp)
      have ih := b64_roundtrip rest (fun x hx => h x (by simp [hx]))
      have h1 : a / 4 < 64 := by omega
      have h2 : a % 4 * 16 + b / 16 < 64 := by omega
      have h3 : b % 16 * 4 + c / 64 < 64 := by omega
      have h4 : c % 64 < 64 := by omega
      cases rest with
      | nil =>
          simp [b64encodeList, encodeChunk3, b64decodeList, decodeLast, decodeQuad,
                b64char_ne_pad _ h3, b64char_ne_pad _ h4,
                b64index_b64char _ h1, b64index_b64char _ h2,
                b64index_b64char _ h3, b64index_b64char _ h4]
          omega
      | cons r rs =>
          have hE : (b64encodeList (r :: rs)).isEmpty = false := by
            cases hE : b64encodeList (r :: rs) with
            | nil => exact absurd hE (b64encodeList_ne_nil r rs)
            | cons x xs => rfl
          simp [b64encodeList, encodeChunk3, b64decodeList, hE, decodeQuad,
                b64index_b64char _ h1, b64index_b64char _ h2,
                b64index_b64char _ h3, b64index_b64char _ h4, ih]
          omega

/-! ## Backend Session Adapter (`GeminiLiveClient`, gemini_live_client.py) -/

/-- A server→client frame (the dict passed to `send_to_client`, keyed by its
`type` field). -/
inductive ServerMsg where
  | connection_established (message : String)
  | audio_data (data : String) (mime_type : String)
  | ai_stopped_speaking
  | generation_interrupted
  | usage_metadata (total_tokens : Nat)
  | pong
  | user_speaking_acknowledged
  | user_speaking_ended_acknowledged
  | error (message : String)
deriving DecidableEq, Repr

/-- A call made on the remote Gemini Live session. -/
inductive RemoteCall where
  | sendRealtimeAudio (data : List Nat) (mime_type : String)
  | sendClientText (text : String)
  | closeSession (handle : Nat)
deriving DecidableEq, Repr

/-- The state of one `GeminiLiveClient`: `session` is the remote session
handle (`None` in Python before connect and after disconnect, here an
opaque `Nat` id), `is_connected` the flag set by `connect` and cleared by
`disconnect` and by the `_listen_for_messages` failure handler.  The other
attributes (`api_key`, `model`, `message_callback`) never influence the
branches the claims are about. -/
structure GeminiLiveClient where
  session : Option Nat
  is_connected : Bool
deriving DecidableEq, Repr

/-- The outcome of `self.client.aio.live.connect(...).__aenter__()`, an
external event: either the remote session opens (with some handle) or an
exception is raised. -/
inductive ConnectOutcome where
  | ok (handle : Nat)
  | failed
deriving DecidableEq, Repr

/-- The outcome of `await self.session.__aexit__(None, None, None)` inside
`disconnect`: the remote exit either completes normally or raises (the
exception is swallowed by the except branch, but the `self.session = None`
line after the await is then skipped). -/
inductive ExitOutcome where
  | ok
  | raised
deriving DecidableEq, Repr

namespace GeminiLiveClient

/-- A fresh client, as built by `GeminiLiveClient(api_key)`:
`self.session = None`, `self.is_connected = False`. -/
def init : GeminiLiveClient := { session := none, is_connected := false }

/-- `connect(message_callback)`: on success sets the session handle and
`is_connected = True` and returns `True`; on an exception the handler logs
and returns `False` (the `is_connected = True` line is never reached). -/
def connect (c : GeminiLiveClient) (o : ConnectOutcome) : GeminiLiveClient × Bool :=
  match o with
  | .ok h => ({ c with session := some h, is_connected := true }, true)
  | .failed => (c, false)

/-- `send_audio(audio_data, mime_type)`: returns `False` without touching the
remote session when `not self.session or not self.is_connected`; otherwise
forwards the bytes and MIME type unchanged via `send_realtime_input` and
returns `True`.  Exceptions are caught inside the method (it never throws
into the caller), which the model reflects by being total. -/
def send_audio (c : GeminiLiveClient) (audio_data : List Nat) (mime_type : String) :
    Bool × List RemoteCall :=
  match c.session, c.is_connected with
  | some _, true => (true, [.sendRealtimeAudio audio_data mime_type])
  | _, _ => (false, [])

/-- `send_text(text)`: same activity precondition as `send_audio`; on an
active session sends the text as one complete user turn. -/
def send_text (c : GeminiLiveClient) (text : String) : Bool × List RemoteCall :=
  match c.session, c.is_connected with
  | some _, true => (true, [.sendClientText text])
  | _, _ => (false, [])

/-- `disconnect()`: sets `self.is_connected = False`, then, if a session is
held, attempts `await self.session.__aexit__(None, None, None)`; only when
that await returns normally does the following `self.session = None` line
run.  If the exit raises, the except branch swallows the error and the
session handle survives, so a later `disconnect` attempts the remote exit
again.  The attempted exit is recorded as a `closeSession` call in both
outcomes. -/
def disconnect (c : GeminiLiveClient) (o : ExitOutcome) :
    GeminiLiveClient × List RemoteCall :=
  match c.session with
  | some h =>
      match o with
      | .ok => ({ session := none, is_connected := false }, [.closeSession h])
      | .raised => ({ c with is_connected := false }, [.closeSession h])
  | none => ({ c with is_connected := false }, [])

/-- The except-branch of `_listen_for_messages`: on any error while
consuming the remote event sequence the method only logs and sets
`self.is_connected = False` — it does not close the session handle, call
back into the server, or send anything to the client. -/
def onListenFailure (c : GeminiLiveClient) : GeminiLiveClient :=
  { c with is_connected := false }

end GeminiLiveClient

/-- `server_content` of a Gemini response: the two independent flags read by
`_handle_gemini_response`. -/
structure ServerContent where
  turn_complete : Bool
  interrupted : Bool
deriving DecidableEq, Repr

/-- One response from `session.receive()`, restricted to the facets
`_handle_gemini_response` reads: optional audio bytes, optional
`server_content`, optional `usage_metadata.total_token_count`. -/
structure GeminiResponse where
  data : Option (List Nat)
  server_content : Option ServerContent
  usage_metadata : Option Nat
deriving DecidableEq, Repr

/-- `_handle_gemini_response(response)`: the frames pushed to the client
callback, in program order — audio first (base64-encoded, fixed 24 kHz MIME
type), then `ai_stopped_speaking` on `turn_complete`, then
`generation_interrupted` on `interrupted`, then `usage_metadata`. -/
def handleGeminiResponse (r : GeminiResponse) : List ServerMsg :=
  (match r.data with
   | some d => [ServerMsg.audio_data (String.mk (b64encodeList d)) "audio/pcm;rate=24000"]
   | none => [])
  ++ (match r.server_content with
      | some sc => if sc.turn_complete then [ServerMsg.ai_stopped_speaking] else []
      | none => [])
  ++ (match r.server_content with
      | some sc => if sc.interrupted then [ServerMsg.generation_interrupted] else []
      | none => [])
  ++ (match r.usage_metadata with
      | some n => [ServerMsg.usage_metadata n]
      | none => [])

/-! ## WebSocket server (`VoiceAIWebSocketServer`, websocket_server.py) -/

/-- Server state: the `clients` dict (websocket → `GeminiLiveClient`) and
the `active_connections` set. -/
structure VoiceAIWebSocketServer where
  clients : List (WS × GeminiLiveClient)
  active_connections : List WS
deriving DecidableEq, Repr

/-- Tag a list of remote calls with the websocket whose adapter made them
(`gemini_client = self.clients[websocket]`). -/
def tagCalls (ws : WS) (l : List RemoteCall) : List (WS × RemoteCall) :=
  l.map (fun c => (ws, c))

namespace VoiceAIWebSocketServer

/-- `send_to_client(websocket, message)`: serializes and sends only when the
websocket is still in `active_connections`; any send error is swallowed. -/
def send_to_client (s : VoiceAIWebSocketServer) (ws : WS) (m : ServerMsg) :
    List (WS × ServerMsg) :=
  if ws ∈ s.active_connections then [(ws, m)] else []

/-- `register_client(websocket)`: adds the websocket to
`active_connections`, creates a fresh `GeminiLiveClient` and stores it in
`self.clients[websocket]` *before* attempting `connect`, then emits
`connection_established` on success or an `error` frame on failure.  Returns
the new server state and the frames sent. -/
def register_client (s : VoiceAIWebSocketServer) (ws : WS) (o : ConnectOutcome) :
    VoiceAIWebSocketServer × List (WS × ServerMsg) :=
  let act := setAdd s.active_connections ws
  let r := GeminiLiveClient.connect GeminiLiveClient.init o
  let s2 : VoiceAIWebSocketServer := { clients := dictSet s.clients ws r.1, active_connections := act }
  if r.2 then
    (s2, s2.send_to_client ws (.connection_established "Успешно подключились к Gemini Live API"))
  else
    (s2, s2.send_to_client ws (.error "Ошибка подключения к Gemini Live API"))

/-- `unregister_client(websocket)`: discards the websocket from
`active_connections`; if it has an entry in `clients`, disconnects that
entry's adapter and deletes the entry (`disconnect` swallows its own
exceptions, so the `del` always runs, whatever the exit outcome `o` of the
adapter's remote close).  Returns the new state and the remote calls made,
tagged with the websocket owning the adapter. -/
def unregister_client (s : VoiceAIWebSocketServer) (ws : WS) (o : ExitOutcome) :
    VoiceAIWebSocketServer × List (WS × RemoteCall) :=
  let act := setDiscard s.active_connections ws
  match dictLookup s.clients ws with
  | some g =>
      ({ clients := dictRemove s.clients ws, active_connections := act },
       tagCalls ws (g.disconnect o).2)
  | none => ({ s with active_connections := act }, [])

/-- `handle_client_message(websocket, message)`: `none` models input on
which `json.loads` raises (answered with the JSON-format error frame); on a
parsed object the method never mutates server state — it only sends frames
and calls the connection's own adapter.  Returns
(server state, frames sent, adapter calls tagged with their owner). -/
def handle_client_message (s : VoiceAIWebSocketServer) (ws : WS) (message : Option JObj) :
    VoiceAIWebSocketServer × List (WS × ServerMsg) × List (WS × RemoteCall) :=
  match message with
  | none => (s, s.send_to_client ws (.error "Неверный формат JSON"), [])
  | some data =>
    let message_type := jobjGet data "type"
    match dictLookup s.clients ws with
    | none => (s, s.send_to_client ws (.error "Сессия не установлена"), [])
    | some gemini_client =>
      if message_type = some "audio_data" then
        let audio_data_b64 := jobjGet data "data"
        let mime_type := (jobjGet data "mime_type").getD "audio/pcm;rate=16000"
        if pyTruthy audio_data_b64 then
          match b64decodeStr (audio_data_b64.getD "") with
          | some audio_bytes =>
            let r := gemini_client.send_audio audio_bytes mime_type
            if r.1 then (s, [], tagCalls ws r.2)
            else (s, s.send_to_client ws (.error "Ошибка отправки аудио в Gemini"), tagCalls ws r.2)
          | none => (s, s.send_to_client ws (.error "Ошибка декодирования аудио данных"), [])
        else (s, [], [])
      else if message_type = some "text_message" then
        let text := jobjGet data "text"
        if pyTruthy text then
          let r := gemini_client.send_text (text.getD "")
          if r.1 then (s, [], tagCalls ws r.2)
          else (s, s.send_to_client ws (.error "Ошибка отправки текста в Gemini"), tagCalls ws r.2)
        else (s, [], [])
      else if message_type = some "user_speaking_started" then
        (s, s.send_to_client ws .user_speaking_acknowledged, [])
      else if message_type = some "user_speaking_stopped" then
        (s, s.send_to_client ws .user_speaking_ended_acknowledged, [])
      else if message_type = some "ping" then
        (s, s.send_to_client ws .pong, [])
      else
        (s, s.send_to_client ws (.error ("Неизвестный тип сообщения: " ++ pyStr message_type)), [])

/-- The effect on the whole server of connection `ws`'s backend-event task
failing (the except-branch of `_listen_for_messages` running on that
connection's `GeminiLiveClient`): only that client's `is_connected` flag is
cleared.  No frame is sent, no remote call is made, and no other code runs
in this path. -/
def onBackendTaskFailure (s : VoiceAIWebSocketServer) (ws : WS) :
    VoiceAIWebSocketServer × List (WS × ServerMsg) × List (WS × RemoteCall) :=
  match dictLookup s.clients ws with
  | some g => ({ s with clients := dictSet s.clients ws g.onListenFailure }, [], [])
  | none => (s, [], [])

/-- Delivery of the frames produced by `_handle_gemini_response` through the
callback registered at connect time (`lambda msg: self.send_to_client(websocket, msg)`
with `websocket` the originating client). -/
def deliverResponses (s : VoiceAIWebSocketServer) (ws : WS) (r : GeminiResponse) :
    List (WS × ServerMsg) :=
  (handleGeminiResponse r).flatMap (fun m => s.send_to_client ws m)

end VoiceAIWebSocketServer

/-! ## Helper lemmas on the dict / set models -/

theorem dictLookup_dictSet_self {α : Type} (l : List (Nat × α)) (k : Nat) (v : α) :
    dictLookup (dictSet l k v) k = some v := by
  induction l with
  | nil => simp [dictSet, dictLookup]
  | cons p rest ih =>
      obtain ⟨k', v'⟩ := p
      by_cases h : k' = k
      · simp [dictSet, h, dictLookup]
      · simp [dictSet, h, dictLookup, ih]

theorem dictLookup_dictRemove_self {α : Type} (l : List (Nat × α)) (k : Nat) :
    dictLookup (dictRemove l k) k = none := by
  induction l with
  | nil => rfl
  | cons p rest ih =>
      obtain ⟨k', v'⟩ := p
      by_cases h : k' = k
      · simpa [dictRemove, h] using ih
      · simpa [dictRemove, h, dictLookup] using ih

theorem dictLookup_dictRemove_ne {α : Type} (l : List (Nat × α)) (k k' : Nat) (h : k' ≠ k) :
    dictLookup (dictRemove l k) k' = dictLookup l k' := by
  induction l with
  | nil => rfl
  | cons p rest ih =>
      obtain ⟨a, b⟩ := p
      by_cases ha : a = k
      · subst ha
        have : a ≠ k' := fun hh => h hh.symm
        simpa [dictRemove, dictLookup, this] using ih
      · by_cases hb : a = k'
        · subst hb
          simp [dictRemove, dictLookup, ha]
        · simpa [dictRemove, dictLookup, ha, hb] using ih

theorem dictRemove_length {α : Type} (l : List (Nat × α)) (k : Nat) (g : α)
    (hnd : (l.map Prod.fst).Nodup) (hk : dictLookup l k = some g) :
    l.length = (dictRemove l k).length + 1 := by
  induction l with
  | nil => simp [dictLookup] at hk
  | cons p rest ih =>
      obtain ⟨k', v'⟩ := p
      simp only [List.map_cons, List.nodup_cons] at hnd
      by_cases h : k' = k
      · subst h
        have hrest : dictRemove rest k' = rest := by
          apply List.filter_eq_self.mpr
          intro p hp
          have : p.1 ≠ k' := by
            intro he
            exact hnd.1 (he ▸ List.mem_map_of_mem Prod.fst hp)
          simpa using this
        have hgoal : dictRemove ((k', v') :: rest) k' = rest := by
          simp [dictRemove] at hrest ⊢
          exact hrest
        rw [hgoal]
        simp
      · have hk' : dictLookup rest k = some g := by simpa [dictLookup, h] using hk
        have := ih hnd.2 hk'
        simp only [dictRemove] at this ⊢
        simp [List.filter, h, this]

theorem mem_setAdd_self (l : List Nat) (x : Nat) : x ∈ setAdd l x := by
  by_cases h : x ∈ l <;> simp [setAdd, h]

theorem mem_setDiscard_ne (l : List Nat) (x y : Nat) (h : y ≠ x) :
    y ∈ setDiscard l x ↔ y ∈ l := by
  simp [setDiscard, List.mem_filter, h]

theorem not_mem_setDiscard (l : List Nat) (x : Nat) : x ∉ setDiscard l x := by
  simp [setDiscard, List.mem_filter]

theorem setDiscard_idem (l : List Nat) (x : Nat) :
    setDiscard (setDiscard l x) x = setDiscard l x := by
  simp [setDiscard, List.filter_filter]

/-! ## Claim theorems -/

/-- C5 (confirmed): a `send_audio` or `send_text` call on an adapter that is
not streaming (no live session handle, or not connected — including after
disconnect or a backend failure) returns the failure result `False` without
throwing into the caller, and forwards nothing to the remote session. -/
theorem send_on_inactive_adapter_fails (c : GeminiLiveClient) (d : List Nat) (m t : String)
    (h : c.session = none ∨ c.is_connected = false) :
    c.send_audio d m = (false, []) ∧ c.send_text t = (false, []) := by
  obtain ⟨sess, conn⟩ := c
  cases sess with
  | none => cases conn <;> exact ⟨rfl, rfl⟩
  | some n =>
      cases conn with
      | false => exact ⟨rfl, rfl⟩
      | true => simp at h

theorem send_on_inactive_adapter_fails_witness :
    GeminiLiveClient.send_audio ⟨none, false⟩ [1] "audio/pcm;rate=16000" = (false, []) ∧
    GeminiLiveClient.send_text ⟨none, false⟩ "пример" = (false, []) :=
  send_on_inactive_adapter_fails ⟨none, false⟩ [1] "audio/pcm;rate=16000" "пример" (Or.inl rfl)

/-- C6 (confirmed): a raw frame that is not parsable JSON (the
`json.JSONDecodeError` branch of `handle_client_message`) is answered with
exactly one `error` frame to the same client, with no adapter call and no
change to the server state; totality of the handler models that no
unhandled fault escapes. -/
theorem invalid_json_one_error_frame (s : VoiceAIWebSocketServer) (ws : WS)
    (h : ws ∈ s.active_connections) :
    s.handle_client_message ws none =
      (s, [(ws, ServerMsg.error "Неверный формат JSON")], []) := by
  simp [VoiceAIWebSocketServer.handle_client_message, VoiceAIWebSocketServer.send_to_client, h]

theorem invalid_json_one_error_frame_witness :
    VoiceAIWebSocketServer.handle_client_message ⟨[], [0]⟩ 0 none =
      (⟨[], [0]⟩, [(0, ServerMsg.error "Неверный формат JSON")], []) :=
  invalid_json_one_error_frame ⟨[], [0]⟩ 0 (by decide)

/-- C8 counterexample: on an adapter holding session 7, a first `disconnect`
whose remote exit raises leaves the session handle in place (only
`is_connected` is cleared, the swallowed exception skips
`self.session = None`), and a second `disconnect` then attempts the remote
exit again — a second `closeSession` call and a further state change, so
calling close twice does not have the same observable effect as calling it
once. -/
theorem close_raised_exit_cex :
    GeminiLiveClient.disconnect ⟨some 7, true⟩ ExitOutcome.raised
      = (⟨some 7, false⟩, [RemoteCall.closeSession 7])
  ∧ GeminiLiveClient.disconnect ⟨some 7, false⟩ ExitOutcome.ok
      = (⟨none, false⟩, [RemoteCall.closeSession 7]) := ⟨rfl, rfl⟩

/-- C8 (corrected): teardown is idempotent except on the swallowed-exception
close path.  After a `disconnect` whose remote exit completed normally (the
adapter holds no session any more), any further `disconnect` is a no-op
success with no remote call; but if the remote exit raised, the session
handle survives and a second `disconnect` re-attempts the remote close.
Re-entrant `unregister_client` calls are unconditional no-ops with no remote
call, whatever the exit outcome of the first call: the registry entry is
deleted even when the adapter's remote exit raised. -/
theorem close_idempotent_on_clean_exit (c : GeminiLiveClient) (s : VoiceAIWebSocketServer)
    (ws : WS) (o o' : ExitOutcome) :
    ((c.disconnect ExitOutcome.ok).1.disconnect o' = ((c.disconnect ExitOutcome.ok).1, []))
  ∧ ((s.unregister_client ws o).1.unregister_client ws o'
      = ((s.unregister_client ws o).1, [])) := by
  constructor
  · obtain ⟨sess, conn⟩ := c
    cases sess <;> rfl
  · unfold VoiceAIWebSocketServer.unregister_client
    cases hl : dictLookup s.clients ws with
    | some g => simp [dictLookup_dictRemove_self, setDiscard_idem]
    | none => simp [hl, setDiscard_idem]

/-- C10 (confirmed): on a registered, active connection a
`user_speaking_started` frame is answered with exactly one
`user_speaking_acknowledged` frame and a `user_speaking_stopped` frame with
exactly one `user_speaking_ended_acknowledged` frame, in both cases with no
backend call and no state change. -/
theorem speaking_notifications_acknowledged (s : VoiceAIWebSocketServer) (ws : WS)
    (g : GeminiLiveClient) (dstart dstop : JObj)
    (hg : dictLookup s.clients ws = some g)
    (hws : ws ∈ s.active_connections)
    (h1 : jobjGet dstart "type" = some "user_speaking_started")
    (h2 : jobjGet dstop "type" = some "user_speaking_stopped") :
    s.handle_client_message ws (some dstart) =
      (s, [(ws, ServerMsg.user_speaking_acknowledged)], [])
  ∧ s.handle_client_message ws (some dstop) =
      (s, [(ws, ServerMsg.user_speaking_ended_acknowledged)], []) := by
  constructor <;>
    simp [VoiceAIWebSocketServer.handle_client_message, VoiceAIWebSocketServer.send_to_client,
          hg, hws, h1, h2]

theorem speaking_notifications_acknowledged_witness :
    VoiceAIWebSocketServer.handle_client_message ⟨[(0, ⟨some 1, true⟩)], [0]⟩ 0
        (some [("type", "user_speaking_started")]) =
      (⟨[(0, ⟨some 1, true⟩)], [0]⟩, [(0, ServerMsg.user_speaking_acknowledged)], [])
  ∧ VoiceAIWebSocketServer.handle_client_message ⟨[(0, ⟨some 1, true⟩)], [0]⟩ 0
        (some [("type", "user_speaking_stopped")]) =
      (⟨[(0, ⟨some 1, true⟩)], [0]⟩, [(0, ServerMsg.user_speaking_ended_acknowledged)], []) :=
  speaking_notifications_acknowledged ⟨[(0, ⟨some 1, true⟩)], [0]⟩ 0 ⟨some 1, true⟩
    [("type", "user_speaking_started")] [("type", "user_speaking_stopped")]
    rfl (by decide) rfl rfl

/-- The facet rank of a server frame: audio before turn-complete before
interrupted before usage, the emission order of `_handle_gemini_response`. -/
def facetRank : ServerMsg → Nat
  | .audio_data _ _ => 0
  | .ai_stopped_speaking => 1
  | .generation_interrupted => 2
  | .usage_metadata _ => 3
  | _ => 4

/-- Number of frames of one facet in an outward frame list. -/
def countFacet (l : List ServerMsg) (k : Nat) : Nat :=
  (l.filter (fun m => facetRank m = k)).length

theorem handleGeminiResponse_counts (r : GeminiResponse) :
    countFacet (handleGeminiResponse r) 0 = (if r.data.isSome then 1 else 0)
  ∧ countFacet (handleGeminiResponse r) 1 =
      (if r.server_content.elim false ServerContent.turn_complete then 1 else 0)
  ∧ countFacet (handleGeminiResponse r) 2 =
      (if r.server_content.elim false ServerContent.interrupted then 1 else 0)
  ∧ countFacet (handleGeminiResponse r) 3 = (if r.usage_metadata.isSome then 1 else 0) := by
  obtain ⟨d, sc, u⟩ := r
  rcases sc with _ | ⟨tc, intr⟩
  · cases d <;> cases u <;>
      simp [handleGeminiResponse, countFacet, facetRank]
  · cases tc <;> cases intr <;> cases d <;> cases u <;>
      simp [handleGeminiResponse, countFacet, facetRank]

theorem handleGeminiResponse_order (r : GeminiResponse) :
    (handleGeminiResponse r).Pairwise (fun m1 m2 => facetRank m1 < facetRank m2) := by
  obtain ⟨d, sc, u⟩ := r
  rcases sc with _ | ⟨tc, intr⟩
  · cases d <;> cases u <;>
      simp [handleGeminiResponse, facetRank]
  · cases tc <;> cases intr <;> cases d <;> cases u <;>
      simp [handleGeminiResponse, facetRank]

theorem deliverResponses_targets (s : VoiceAIWebSocketServer) (ws : WS) (r : GeminiResponse) :
    ∀ p ∈ s.deliverResponses ws r, p.1 = ws := by
  intro p hp
  simp only [VoiceAIWebSocketServer.deliverResponses, List.mem_flatMap,
             VoiceAIWebSocketServer.send_to_client] at hp
  obtain ⟨m, _, hpin⟩ := hp
  by_cases h : ws ∈ s.active_connections
  · rw [if_pos h] at hpin
    simp at hpin
    rw [hpin]
  · rw [if_neg h] at hpin
    simp at hpin

/-- C4 (confirmed): each facet present on a backend event yields exactly one
outward frame of the matching type, emitted in the fixed order audio, then
turn-complete, then interrupted, then usage; an event carrying both the
turn-complete flag and usage stats yields exactly `ai_stopped_speaking`
followed by `usage_metadata`, and delivery through the connect-time callback
goes to the originating client only. -/
theorem gemini_event_facets (r : GeminiResponse) (s : VoiceAIWebSocketServer) (ws : WS) (n : Nat) :
    countFacet (handleGeminiResponse r) 0 = (if r.data.isSome then 1 else 0)
  ∧ countFacet (handleGeminiResponse r) 1 =
      (if r.server_content.elim false ServerContent.turn_complete then 1 else 0)
  ∧ countFacet (handleGeminiResponse r) 2 =
      (if r.server_content.elim false ServerContent.interrupted then 1 else 0)
  ∧ countFacet (handleGeminiResponse r) 3 = (if r.usage_metadata.isSome then 1 else 0)
  ∧ (handleGeminiResponse r).Pairwise (fun m1 m2 => facetRank m1 < facetRank m2)
  ∧ handleGeminiResponse ⟨none, some ⟨true, false⟩, some n⟩ =
      [ServerMsg.ai_stopped_speaking, ServerMsg.usage_metadata n]
  ∧ (∀ p ∈ s.deliverResponses ws r, p.1 = ws) := by
  obtain ⟨h0, h1, h2, h3⟩ := handleGeminiResponse_counts r
  exact ⟨h0, h1, h2, h3, handleGeminiResponse_order r, rfl, deliverResponses_targets s ws r⟩

/-- C1 counterexample: starting from an empty server, a client connect whose
backend connect fails still leaves an entry for that websocket in the
`clients` registry (and the websocket in `active_connections`) after
`register_client` completes — registration happens before the connect
attempt and is not rolled back, contradicting "contains no entry". -/
theorem register_failure_leaves_entry_cex :
    dictLookup (VoiceAIWebSocketServer.register_client ⟨[], []⟩ 0 ConnectOutcome.failed).1.clients 0
      = some ⟨none, false⟩
  ∧ 0 ∈ (VoiceAIWebSocketServer.register_client ⟨[], []⟩ 0 ConnectOutcome.failed).1.active_connections
  ∧ (VoiceAIWebSocketServer.register_client ⟨[], []⟩ 0 ConnectOutcome.failed).2
      = [(0, ServerMsg.error "Ошибка подключения к Gemini Live API")] := by
  refine ⟨rfl, ?_, rfl⟩
  decide

/-- C1 (corrected): when opening the backend session fails,
`register_client` emits exactly one `error` frame to the client, but the
connection has already been registered (in `clients` and
`active_connections`) before the connect attempt, and that registration is
not rolled back: the registry keeps an entry for the connection, holding a
never-connected adapter; it is removed only when the client disconnects. -/
theorem register_failure_behavior (s : VoiceAIWebSocketServer) (ws : WS) :
    dictLookup (s.register_client ws ConnectOutcome.failed).1.clients ws
      = some GeminiLiveClient.init
  ∧ ws ∈ (s.register_client ws ConnectOutcome.failed).1.active_connections
  ∧ (s.register_client ws ConnectOutcome.failed).2 =
      [(ws, ServerMsg.error "Ошибка подключения к Gemini Live API")] := by
  unfold VoiceAIWebSocketServer.register_client GeminiLiveClient.connect
  refine ⟨dictLookup_dictSet_self _ _ _, mem_setAdd_self _ _, ?_⟩
  simp [VoiceAIWebSocketServer.send_to_client, mem_setAdd_self s.active_connections ws]

/-- C2 counterexample: a server with one registered connection (websocket 0,
adapter holding live session 7).  When that connection's backend-event task
fails, the registry entry is *not* removed: the connection stays in
`active_connections`, the entry keeps its session handle (only
`is_connected` is cleared), no remote close happens and nothing is sent to
the client — the teardown the claim requires does not occur. -/
theorem backend_task_failure_no_teardown_cex :
    VoiceAIWebSocketServer.onBackendTaskFailure ⟨[(0, ⟨some 7, true⟩)], [0]⟩ 0
      = (⟨[(0, ⟨some 7, false⟩)], [0]⟩, [], [])
  ∧ dictLookup (VoiceAIWebSocketServer.onBackendTaskFailure ⟨[(0, ⟨some 7, true⟩)], [0]⟩ 0).1.clients 0
      = some ⟨some 7, false⟩ := ⟨rfl, rfl⟩

/-- C2 (corrected): a failure of the backend-event-consumption task only
clears that connection's `is_connected` flag: later sends on the adapter
fail with the session-not-active result, but no teardown is triggered — the
registry entry remains, the connection stays in `active_connections`, the
remote session handle is not closed, and no frame or remote call is made.
The client connection is left half-open until the client itself
disconnects. -/
theorem backend_task_failure_behavior (s : VoiceAIWebSocketServer) (ws : WS)
    (g : GeminiLiveClient) (d : List Nat) (m t : String)
    (hg : dictLookup s.clients ws = some g) :
    dictLookup (s.onBackendTaskFailure ws).1.clients ws = some { g with is_connected := false }
  ∧ (s.onBackendTaskFailure ws).1.active_connections = s.active_connections
  ∧ (s.onBackendTaskFailure ws).2 = ([], [])
  ∧ GeminiLiveClient.send_audio { g with is_connected := false } d m = (false, [])
  ∧ GeminiLiveClient.send_text { g with is_connected := false } t = (false, []) := by
  unfold VoiceAIWebSocketServer.onBackendTaskFailure
  rw [hg]
  refine ⟨?_, rfl, rfl, ?_, ?_⟩
  · exact dictLookup_dictSet_self _ _ _
  · obtain ⟨sess, conn⟩ := g
    cases sess <;> rfl
  · obtain ⟨sess, conn⟩ := g
    cases sess <;> rfl

theorem backend_task_failure_behavior_witness :
    dictLookup (VoiceAIWebSocketServer.onBackendTaskFailure
        ⟨[(0, ⟨some 7, true⟩)], [0]⟩ 0).1.clients 0 = some ⟨some 7, false⟩
  ∧ (VoiceAIWebSocketServer.onBackendTaskFailure
        ⟨[(0, ⟨some 7, true⟩)], [0]⟩ 0).1.active_connections = [0]
  ∧ (VoiceAIWebSocketServer.onBackendTaskFailure ⟨[(0, ⟨some 7, true⟩)], [0]⟩ 0).2 = ([], [])
  ∧ GeminiLiveClient.send_audio ⟨some 7, false⟩ [1] "audio/pcm;rate=16000" = (false, [])
  ∧ GeminiLiveClient.send_text ⟨some 7, false⟩ "пример" = (false, []) :=
  backend_task_failure_behavior ⟨[(0, ⟨some 7, true⟩)], [0]⟩ 0 ⟨some 7, true⟩
    [1] "audio/pcm;rate=16000" "пример" rfl

theorem b64encodeList_isEmpty_false (a : Nat) (l : List Nat) :
    (b64encodeList (a :: l)).isEmpty = false := by
  cases hE : b64encodeList (a :: l) with
  | nil => exact absurd hE (b64encodeList_ne_nil a l)
  | cons x xs => rfl

theorem b64decodeStr_encode (X : List Nat) (hb : ∀ b ∈ X, b < 256) :
    b64decodeStr (String.mk (b64encodeList X)) = some X :=
  b64_roundtrip X hb

/-- C3 counterexample: for the empty byte sequence `X = []` (whose base64
encoding is the empty string), an `audio_data` frame on an active, streaming
connection produces *zero* `sendRealtimeAudio` calls — the empty string is
falsy in Python, so the handler silently skips the send — refuting "exactly
one sendAudio call on that connection's adapter" for every byte payload. -/
theorem audio_frame_empty_payload_cex :
    VoiceAIWebSocketServer.handle_client_message ⟨[(0, ⟨some 1, true⟩)], [0]⟩ 0
      (some [("type", "audio_data"), ("data", String.mk (b64encodeList [])),
             ("mime_type", "audio/pcm;rate=16000")])
      = (⟨[(0, ⟨some 1, true⟩)], [0]⟩, [], []) := rfl

/-- C3 (amended): for every `audio_data` frame whose `data` field is the
base64 encoding of a *nonempty* byte sequence `X` and whose `mime_type`
field is `M`, handled on a connection whose registered adapter is streaming,
the bridge makes exactly one `sendRealtimeAudio(X, M)` call on that
connection's own adapter (the payload is base64-decoded, not transcoded) and
no call on any other connection's adapter, sends no frame, and leaves the
server state unchanged.  (For empty `X` the falsy-string guard drops the
frame and no call is made.) -/
theorem audio_frame_forwarded (s : VoiceAIWebSocketServer) (ws : WS) (g : GeminiLiveClient)
    (hdl : Nat) (X : List Nat) (M : String) (frame : JObj)
    (hg : dictLookup s.clients ws = some g)
    (hsess : g.session = some hdl) (hconn : g.is_connected = true)
    (hty : jobjGet frame "type" = some "audio_data")
    (hdata : jobjGet frame "data" = some (String.mk (b64encodeList X)))
    (hmime : jobjGet frame "mime_type" = some M)
    (hX : X ≠ []) (hbytes : ∀ b ∈ X, b < 256) :
    s.handle_client_message ws (some frame) =
      (s, [], [(ws, RemoteCall.sendRealtimeAudio X M)]) := by
  obtain ⟨x, xs, rfl⟩ := List.exists_cons_of_ne_nil hX
  have htruthy : pyTruthy (some (String.mk (b64encodeList (x :: xs)))) = true := by
    simp [pyTruthy, b64encodeList_isEmpty_false]
  have hdec : b64decodeStr (String.mk (b64encodeList (x :: xs))) = some (x :: xs) :=
    b64decodeStr_encode _ hbytes
  have hsend : g.send_audio (x :: xs) M = (true, [RemoteCall.sendRealtimeAudio (x :: xs) M]) := by
    obtain ⟨sess, conn⟩ := g
    simp only at hsess hconn
    subst hsess hconn
    rfl
  simp [VoiceAIWebSocketServer.handle_client_message, hg, hty, hdata, hmime, htruthy, hdec,
        hsend, tagCalls]

theorem audio_frame_forwarded_witness :
    VoiceAIWebSocketServer.handle_client_message ⟨[(0, ⟨some 1, true⟩)], [0]⟩ 0
      (some [("type", "audio_data"), ("data", String.mk (b64encodeList [1, 2, 3])),
             ("mime_type", "audio/pcm;rate=16000")])
      = (⟨[(0, ⟨some 1, true⟩)], [0]⟩, [],
         [(0, RemoteCall.sendRealtimeAudio [1, 2, 3] "audio/pcm;rate=16000")]) :=
  audio_frame_forwarded ⟨[(0, ⟨some 1, true⟩)], [0]⟩ 0 ⟨some 1, true⟩ 1 [1, 2, 3]
    "audio/pcm;rate=16000"
    [("type", "audio_data"), ("data", String.mk (b64encodeList [1, 2, 3])),
     ("mime_type", "audio/pcm;rate=16000")]
    rfl rfl rfl rfl rfl rfl (by decide) (by decide)

/-- C7 counterexample: an `audio_data` frame without a `data` field and a
`text_message` frame without a `text` field, each on a registered active
connection, produce *no* frame at all (in particular no `error{message}`
frame) and no adapter call — the handler's truthiness guard silently drops
them, refuting "the client receives an error{message} frame". -/
theorem missing_required_field_silent_cex :
    VoiceAIWebSocketServer.handle_client_message ⟨[(0, ⟨some 1, true⟩)], [0]⟩ 0
        (some [("type", "audio_data")])
      = (⟨[(0, ⟨some 1, true⟩)], [0]⟩, [], [])
  ∧ VoiceAIWebSocketServer.handle_client_message ⟨[(0, ⟨some 1, true⟩)], [0]⟩ 0
        (some [("type", "text_message")])
      = (⟨[(0, ⟨some 1, true⟩)], [0]⟩, [], []) := ⟨rfl, rfl⟩

/-- C7 (corrected): a well-formed JSON frame of variant `audio_data` whose
`data` field is absent, or of variant `text_message` whose `text` field is
absent, is silently ignored on a registered connection: no adapter call is
made, but also no `error{message}` frame is sent back — the frame is
dropped without any reply, and the server state is unchanged. -/
theorem missing_required_field_dropped (s : VoiceAIWebSocketServer) (ws : WS)
    (g : GeminiLiveClient) (fa ft : JObj)
    (hg : dictLookup s.clients ws = some g)
    (hta : jobjGet fa "type" = some "audio_data") (hda : jobjGet fa "data" = none)
    (htt : jobjGet ft "type" = some "text_message") (hdt : jobjGet ft "text" = none) :
    s.handle_client_message ws (some fa) = (s, [], [])
  ∧ s.handle_client_message ws (some ft) = (s, [], []) := by
  constructor <;>
    simp [VoiceAIWebSocketServer.handle_client_message, hg, hta, hda, htt, hdt, pyTruthy]

theorem missing_required_field_dropped_witness :
    VoiceAIWebSocketServer.handle_client_message ⟨[(0, ⟨some 1, true⟩)], [0]⟩ 0
        (some [("type", "audio_data")])
      = (⟨[(0, ⟨some 1, true⟩)], [0]⟩, [], [])
  ∧ VoiceAIWebSocketServer.handle_client_message ⟨[(0, ⟨some 1, true⟩)], [0]⟩ 0
        (some [("type", "text_message")])
      = (⟨[(0, ⟨some 1, true⟩)], [0]⟩, [], []) :=
  missing_required_field_dropped ⟨[(0, ⟨some 1, true⟩)], [0]⟩ 0 ⟨some 1, true⟩
    [("type", "audio_data")] [("type", "text_message")] rfl rfl rfl rfl rfl

/-- C9 (confirmed): in a registry with unique keys containing connections
`A` and `B` with `A ≠ B`, unregistering `A` (whatever the outcome of the
remote close) removes only `A`'s entry: `B`'s registry entry and membership
in `active_connections` are unchanged, the registry count decrements by
exactly one, and every remote call made during the teardown is on `A`'s own
adapter. -/
theorem unregister_affects_only_target (s : VoiceAIWebSocketServer) (A B : WS)
    (g : GeminiLiveClient) (o : ExitOutcome)
    (hne : B ≠ A)
    (hA : dictLookup s.clients A = some g)
    (hnd : (s.clients.map Prod.fst).Nodup) :
    dictLookup (s.unregister_client A o).1.clients B = dictLookup s.clients B
  ∧ (B ∈ (s.unregister_client A o).1.active_connections ↔ B ∈ s.active_connections)
  ∧ s.clients.length = (s.unregister_client A o).1.clients.length + 1
  ∧ (∀ p ∈ (s.unregister_client A o).2, p.1 = A) := by
  unfold VoiceAIWebSocketServer.unregister_client
  rw [hA]
  refine ⟨dictLookup_dictRemove_ne _ _ _ hne, mem_setDiscard_ne _ _ _ hne,
          dictRemove_length _ _ _ hnd hA, ?_⟩
  intro p hp
  simp only [tagCalls, List.mem_map] at hp
  obtain ⟨c, _, rfl⟩ := hp
  rfl

theorem unregister_affects_only_target_witness :
    dictLookup (VoiceAIWebSocketServer.unregister_client
        ⟨[(0, ⟨some 1, true⟩), (1, ⟨some 2, true⟩)], [0, 1]⟩ 0 ExitOutcome.ok).1.clients 1
      = dictLookup [(0, (⟨some 1, true⟩ : GeminiLiveClient)), (1, ⟨some 2, true⟩)] 1
  ∧ (1 ∈ (VoiceAIWebSocketServer.unregister_client
        ⟨[(0, ⟨some 1, true⟩), (1, ⟨some 2, true⟩)], [0, 1]⟩ 0
          ExitOutcome.ok).1.active_connections ↔
      1 ∈ [0, 1])
  ∧ [(0, (⟨some 1, true⟩ : GeminiLiveClient)), (1, ⟨some 2, true⟩)].length
      = (VoiceAIWebSocketServer.unregister_client
          ⟨[(0, ⟨some 1, true⟩), (1, ⟨some 2, true⟩)], [0, 1]⟩ 0
            ExitOutcome.ok).1.clients.length + 1
  ∧ (∀ p ∈ (VoiceAIWebSocketServer.unregister_client
        ⟨[(0, ⟨some 1, true⟩), (1, ⟨some 2, true⟩)], [0, 1]⟩ 0 ExitOutcome.ok).2, p.1 = 0) :=
  unregister_affects_only_target ⟨[(0, ⟨some 1, true⟩), (1, ⟨some 2, true⟩)], [0, 1]⟩ 0 1
    ⟨some 1, true⟩ ExitOutcome.ok (by decide) rfl (by decide)
